import Mathlib

/-!
# Verification of the Amazon_books crawler (`src/data_collection/data_collection.py`)

This file gives a shallow embedding, in Lean 4, of the crawl-and-recovery
pipeline of `data_collection.py`:

* the Python string helpers the code relies on (`strip`, `split`,
  substring membership, `replace`, `lower`),
* `generate_id` (an executable MD5 over the UTF-8 bytes of the URL,
  matching `hashlib.md5(url.encode()).hexdigest()`),
* `random_delay` (`time.sleep(random.uniform(*DELAY_RANGE))`) over ℚ,
* `handle_sorry_page`, the interstitial recovery loop (named
  `handleErrorPage` here),
* the field extractors `extract_title`, `extract_price`, `extract_rating`,
  `extract_brand`, `extract_color`, `extract_product_details`,
* the incremental CSV writer (the `open(csv_file, "a")` / `DictWriter`
  block) and the `DictReader` seeding of `scraped_ids`,
* the per-item pipeline and the per-category crawl loop of
  `scrape_category`, and the category loop of `main`.

External effects (Selenium page contents, filesystem success/failure,
network downloads) are inputs of the model: each candidate item carries the
page sources the recovery loop will observe, the parsed snapshot, and the
success/failure of each side effect.  Python exceptions are modelled with
an explicit error type threaded through `Except`-style results.
-/

set_option maxRecDepth 1000000

namespace AmazonBooks

/-! ## Python string primitives -/

/-- Python whitespace (the characters `str.strip`/`str.split` treat as
whitespace for the ASCII pages at hand). -/
def isPySpace (c : Char) : Bool :=
  c == ' ' || c == '\t' || c == '\n' || c == '\r' || c == Char.ofNat 11 || c == Char.ofNat 12

/-- `s.strip()` on a character list: drop whitespace at both ends. -/
def pyStripList (l : List Char) : List Char :=
  ((l.dropWhile isPySpace).reverse.dropWhile isPySpace).reverse

/-- Python `s.strip()`. -/
def pyStrip (s : String) : String :=
  String.mk (pyStripList s.toList)

/-- Worker for `str.split()` with no separator: split on whitespace runs,
dropping empty pieces.  `acc` holds the current word reversed. -/
def pySplitWsGo : List Char → List Char → List String
  | [], acc => if acc.isEmpty then [] else [String.mk acc.reverse]
  | c :: cs, acc =>
    if isPySpace c then
      if acc.isEmpty then pySplitWsGo cs []
      else String.mk acc.reverse :: pySplitWsGo cs []
    else pySplitWsGo cs (c :: acc)

/-- Python `s.split()` (no argument): whitespace-separated words. -/
def pySplitWs (s : String) : List String :=
  pySplitWsGo s.toList []

/-- `listPrefixOf pat l` : is `pat` a prefix of `l`? (Python `startswith`.) -/
def listPrefixOf : List Char → List Char → Bool
  | [], _ => true
  | _ :: _, [] => false
  | a :: as, b :: bs => a == b && listPrefixOf as bs

/-- `listInfixOf pat l` : does `pat` occur as a contiguous substring of `l`?
(Python `pat in l`.) -/
def listInfixOf (pat : List Char) : List Char → Bool
  | [] => listPrefixOf pat []
  | c :: cs => listPrefixOf pat (c :: cs) || listInfixOf pat cs

/-- Python `needle in hay` on strings. -/
def strContains (hay needle : String) : Bool :=
  listInfixOf needle.toList hay.toList

/-- Worker for `s.split(sep)[0]`: the prefix of `l` before the first
occurrence of `sep` (all of `l` if `sep` does not occur). -/
def splitHeadGo (sep : List Char) : List Char → List Char
  | [] => []
  | c :: cs => if listPrefixOf sep (c :: cs) then [] else c :: splitHeadGo sep cs

/-- Python `s.split(sep)[0]` for a non-empty separator. -/
def pySplitHead (s sep : String) : String :=
  String.mk (splitHeadGo sep.toList s.toList)

/-- Python `s.rstrip(":")`: drop all trailing colons. -/
def pyRstripColon (s : String) : String :=
  String.mk (s.toList.reverse.dropWhile (· == ':')).reverse

/-- Python `s.lower()` (the pages at hand are ASCII). -/
def pyLower (s : String) : String :=
  String.mk (s.toList.map Char.toLower)

/-- Worker for `str.replace`: left-to-right, non-overlapping; the fuel
(initial list length) makes the recursion structural so it reduces in
the kernel.  Patterns are non-empty throughout the source. -/
def listReplaceGo (pat rep : List Char) : Nat → List Char → List Char
  | 0, l => l
  | _, [] => []
  | fuel + 1, c :: cs =>
    if listPrefixOf pat (c :: cs) then
      rep ++ listReplaceGo pat rep fuel ((c :: cs).drop pat.length)
    else c :: listReplaceGo pat rep fuel cs

/-- Python `s.replace(pat, rep)` for non-empty `pat`. -/
def pyReplace (s pat rep : String) : String :=
  String.mk (listReplaceGo pat.toList rep.toList s.toList.length s.toList)

/-- The apostrophe character, used to build the block-page marker
string without a bare quote character in a literal. -/
def apos : String := String.mk [Char.ofNat 39]

/-! ## MD5 (`hashlib.md5`), executable over `Nat` bytes

`generate_id(url)` in the source is `hashlib.md5(url.encode()).hexdigest()`.
We implement MD5 (RFC 1321) over byte lists, with 32-bit words represented
as `Nat` reduced mod `2^32`. -/

/-- Reduce mod 2^32. -/
def m32 (x : Nat) : Nat := x % 4294967296

/-- 32-bit modular addition. -/
def mAdd (a b : Nat) : Nat := m32 (a + b)

/-- 32-bit left rotation (for `x < 2^32` the two shifted halves occupy
disjoint bit ranges, so `+` is bitwise or). -/
def rotl32 (x n : Nat) : Nat := m32 (x * 2 ^ n) + x / 2 ^ (32 - n)

/-- 32-bit bitwise complement for `x < 2^32`. -/
def bnot32 (x : Nat) : Nat := 4294967295 - x

/-- The MD5 sine-derived round constants `K[0..63]`. -/
def md5K : List Nat :=
  [0xd76aa478, 0xe8c7b756, 0x242070db, 0xc1bdceee,
   0xf57c0faf, 0x4787c62a, 0xa8304613, 0xfd469501,
   0x698098d8, 0x8b44f7af, 0xffff5bb1, 0x895cd7be,
   0x6b901122, 0xfd987193, 0xa679438e, 0x49b40821,
   0xf61e2562, 0xc040b340, 0x265e5a51, 0xe9b6c7aa,
   0xd62f105d, 0x02441453, 0xd8a1e681, 0xe7d3fbc8,
   0x21e1cde6, 0xc33707d6, 0xf4d50d87, 0x455a14ed,
   0xa9e3e905, 0xfcefa3f8, 0x676f02d9, 0x8d2a4c8a,
   0xfffa3942, 0x8771f681, 0x6d9d6122, 0xfde5380c,
   0xa4beea44, 0x4bdecfa9, 0xf6bb4b60, 0xbebfbc70,
   0x289b7ec6, 0xeaa127fa, 0xd4ef3085, 0x04881d05,
   0xd9d4d039, 0xe6db99e5, 0x1fa27cf8, 0xc4ac5665,
   0xf4292244, 0x432aff97, 0xab9423a7, 0xfc93a039,
   0x655b59c3, 0x8f0ccc92, 0xffeff47d, 0x85845dd1,
   0x6fa87e4f, 0xfe2ce6e0, 0xa3014314, 0x4e0811a1,
   0xf7537e82, 0xbd3af235, 0x2ad7d2bb, 0xeb86d391]

/-- The MD5 per-round left-rotation amounts `s[0..63]`. -/
def md5S : List Nat :=
  [7, 12, 17, 22, 7, 12, 17, 22, 7, 12, 17, 22, 7, 12, 17, 22,
   5, 9, 14, 20, 5, 9, 14, 20, 5, 9, 14, 20, 5, 9, 14, 20,
   4, 11, 16, 23, 4, 11, 16, 23, 4, 11, 16, 23, 4, 11, 16, 23,
   6, 10, 15, 21, 6, 10, 15, 21, 6, 10, 15, 21, 6, 10, 15, 21]

/-- Little-endian byte decomposition of `n` into `w` bytes. -/
def natLE (n : Nat) : Nat → List Nat
  | 0 => []
  | w + 1 => n % 256 :: natLE (n / 256) w

/-- MD5 padding: append `0x80`, zero-pad to 56 mod 64, append the bit
length as 8 little-endian bytes. -/
def md5Pad (msg : List Nat) : List Nat :=
  msg ++ [128] ++ List.replicate ((119 - msg.length % 64) % 64) 0
      ++ natLE (msg.length * 8) 8

/-- Worker for `chunks64`, structurally recursive on a fuel bound so that
it reduces inside the kernel. -/
def chunks64Go : Nat → List Nat → List (List Nat)
  | 0, _ => []
  | _, [] => []
  | fuel + 1, l@(_ :: _) => l.take 64 :: chunks64Go fuel (l.drop 64)

/-- Split a byte list into 64-byte chunks (length is a multiple of 64
after padding). -/
def chunks64 (l : List Nat) : List (List Nat) :=
  chunks64Go l.length l

/-- The `g`-th little-endian 32-bit word of a 64-byte chunk. -/
def md5Word (chunk : List Nat) (g : Nat) : Nat :=
  chunk.getD (4 * g) 0 + 256 * chunk.getD (4 * g + 1) 0
    + 65536 * chunk.getD (4 * g + 2) 0 + 16777216 * chunk.getD (4 * g + 3) 0

/-- One MD5 round `i` (0 ≤ i < 64) on state `(a,b,c,d)`. -/
def md5Round (chunk : List Nat) (st : Nat × Nat × Nat × Nat) (i : Nat) :
    Nat × Nat × Nat × Nat :=
  let a := st.1
  let b := st.2.1
  let c := st.2.2.1
  let d := st.2.2.2
  let fg : Nat × Nat :=
    if i < 16 then (((b &&& c) ||| (bnot32 b &&& d)), i)
    else if i < 32 then (((d &&& b) ||| (bnot32 d &&& c)), (5 * i + 1) % 16)
    else if i < 48 then ((b ^^^ c ^^^ d), (3 * i + 5) % 16)
    else ((c ^^^ (b ||| bnot32 d)), (7 * i) % 16)
  let f := mAdd (mAdd (mAdd fg.1 a) (md5K.getD i 0)) (md5Word chunk fg.2)
  (d, mAdd b (rotl32 f (md5S.getD i 0)), b, c)

/-- Process one 64-byte chunk: 64 rounds, then add into the running state. -/
def md5Chunk (st : Nat × Nat × Nat × Nat) (chunk : List Nat) :
    Nat × Nat × Nat × Nat :=
  let r := (List.range 64).foldl (md5Round chunk) st
  (mAdd st.1 r.1, mAdd st.2.1 r.2.1, mAdd st.2.2.1 r.2.2.1, mAdd st.2.2.2 r.2.2.2)

/-- MD5 digest (16 bytes) of a byte list. -/
def md5Bytes (msg : List Nat) : List Nat :=
  let st := (chunks64 (md5Pad msg)).foldl md5Chunk
    (0x67452301, 0xefcdab89, 0x98badcfe, 0x10325476)
  natLE st.1 4 ++ natLE st.2.1 4 ++ natLE st.2.2.1 4 ++ natLE st.2.2.2 4

/-- Lowercase hex digit of `n < 16`. -/
def hexDigit (n : Nat) : Char :=
  if n < 10 then Char.ofNat (48 + n) else Char.ofNat (87 + n)

/-- Two-digit lowercase hex of a byte. -/
def byteHex (b : Nat) : List Char :=
  [hexDigit (b / 16), hexDigit (b % 16)]

/-- `hexdigest()` of a byte list. -/
def hexdigest (bs : List Nat) : String :=
  String.mk ((bs.map byteHex).flatten)

/-- UTF-8 encoding of one code point (Python `str.encode()`), as bytes. -/
def encodeCp (n : Nat) : List Nat :=
  if n < 128 then [n]
  else if n < 2048 then [192 + n / 64, 128 + n % 64]
  else if n < 65536 then [224 + n / 4096, 128 + n / 64 % 64, 128 + n % 64]
  else [240 + n / 262144, 128 + n / 4096 % 64, 128 + n / 64 % 64, 128 + n % 64]

/-- Python `s.encode()` (UTF-8 bytes of the string). -/
def utf8Bytes (s : String) : List Nat :=
  (s.toList.map (fun c => encodeCp c.toNat)).flatten

/-- `generate_id(url)` from the source:
`hashlib.md5(url.encode()).hexdigest()`. -/
def generate_id (url : String) : String :=
  hexdigest (md5Bytes (utf8Bytes url))

/-! ## Exceptions

Python exceptions that the modelled fragment can raise. `ioError` stands
for any `OSError`-family exception of a file operation. -/

inductive PyError where
  | indexError
  | valueError
  | ioError
deriving DecidableEq, Repr

/-! ## Rate governor: `random_delay`

`random_delay()` is `time.sleep(random.uniform(*DELAY_RANGE))`.  CPython's
`random.uniform(a, b)` returns `a + (b - a) * random()` with
`random() ∈ [0, 1)` and never raises; `time.sleep(d)` raises `ValueError`
for negative `d`.  Durations are modelled as rationals. -/

/-- CPython `random.uniform a b` at a draw `u` of `random()`. -/
def pyUniform (a b u : ℚ) : ℚ := a + (b - a) * u

/-- `time.sleep`: returns the slept duration, raises `ValueError` when the
requested duration is negative. -/
def pySleep (d : ℚ) : Except PyError ℚ :=
  if d < 0 then .error .valueError else .ok d

/-- `random_delay()` from the source, with the configured `DELAY_RANGE`
and the value `u` drawn by `random()` made explicit. -/
def random_delay (range : ℚ × ℚ) (u : ℚ) : Except PyError ℚ :=
  pySleep (pyUniform range.1 range.2 u)

/-! ## Interstitial recovery: `handle_sorry_page`

The Python loop, for `attempt` in `1..max_retries`:
read `src = (driver.page_source or '').lower()`; if none of the three
block markers occurs, return `True`; otherwise best-effort dismiss an
overlay, back off, `driver.refresh()` (which replaces the page source),
dismiss overlays again, and — exactly when `attempt == 2` — clear
localStorage/sessionStorage and cookies.  After the loop a final check
reads the current source and returns `False` if it still contains the
error-image marker or the "sorry! something went wrong" text (the
"we're sorry" marker is NOT part of the final check), else `True`.

The page sources observed are an input: `srcs.getD k ""` is the source
after `k` refreshes (`getD _ ""` matching `page_source or ''`). -/

/-- The marker `"we're sorry"` (built without a bare quote literal). -/
def apologyMarker : String := "we" ++ apos ++ "re sorry"

/-- The in-loop block classification of `handle_sorry_page` (line 171):
any of the three markers occurs in the lowercased source. -/
def loopBlocked (src : String) : Bool :=
  strContains src "error/500_503.png" ||
  strContains src "sorry! something went wrong" ||
  strContains src apologyMarker

/-- The final-check classification (line 217): only two of the three
markers are tested. -/
def finalBlocked (src : String) : Bool :=
  strContains src "error/500_503.png" ||
  strContains src "sorry! something went wrong"

/-- The source observed after `k` refreshes, lowercased as in
`(driver.page_source or '').lower()`. -/
def srcAt (srcs : List String) (k : Nat) : String :=
  pyLower (srcs.getD k "")

/-- Observable recovery actions, for stating when the engine refreshes
and when it clears session state. -/
inductive RecAction where
  | refresh
  | clearState
deriving DecidableEq, Repr

/-- Worker for `handle_sorry_page`: `attempt` is the 1-based loop counter,
`fuel = maxRetries - attempt + 1` counts the remaining iterations.  The
page source read at attempt `i` is the one after `i - 1` refreshes; the
final check reads the source after `maxRetries` refreshes. -/
def handleErrorGo (srcs : List String) (maxRetries : Nat) :
    Nat → Nat → Bool × List RecAction
  | _, 0 => (!finalBlocked (srcAt srcs maxRetries), [])
  | attempt, fuel + 1 =>
    if !loopBlocked (srcAt srcs (attempt - 1)) then (true, [])
    else
      let rest := handleErrorGo srcs maxRetries (attempt + 1) fuel
      (rest.1,
        RecAction.refresh ::
          ((if attempt == 2 then [RecAction.clearState] else []) ++ rest.2))

/-- `handle_sorry_page(driver, product_url, max_retries)` from the source:
returns the Boolean result together with the trace of refreshes and
session-state clears it performed. -/
def handleErrorPage (srcs : List String) (maxRetries : Nat) :
    Bool × List RecAction :=
  handleErrorGo srcs maxRetries 1 maxRetries

/-! ## Record extraction

A `Soup` is the parsed product page as the extractors see it: for each
CSS selector the code uses, the raw text of the selected element (or
`none` when `select_one` finds nothing), plus the product-facts rows, the
about text and the resolved image URL. -/

structure Soup where
  /-- `#productTitle` element text, `none` when absent. -/
  productTitle : Option String
  /-- `.a-price-whole` element text. -/
  priceWhole : Option String
  /-- `.a-price-fraction` element text. -/
  priceFraction : Option String
  /-- `.a-price-symbol` element text. -/
  priceSymbol : Option String
  /-- `span.a-icon-alt` element text. -/
  ratingAlt : Option String
  /-- `#bylineInfo` element text. -/
  bylineInfo : Option String
  /-- `span.selection, #inline-...-color_name` element text. -/
  colorSel : Option String
  /-- `.product-facts-detail` rows: the optional label and value texts. -/
  detailRows : List (Option String × Option String)
  /-- Result of `extract_about_text` (the joined bullet text, `""` when
  no list is found). -/
  aboutText : String
  /-- Resolved image URL of `extract_image_url`. -/
  imageUrl : Option String
deriving DecidableEq, Repr

/-- `extract_title(soup)`:
`soup.select_one("#productTitle").get_text(strip=True) if ... else "N/A"`. -/
def extract_title (s : Soup) : String :=
  match s.productTitle with
  | some t => pyStrip t
  | none => "N/A"

/-- `extract_price(soup)`: `None` when the whole-part or symbol element is
missing, otherwise the formatted price text; the fraction part is
optional. -/
def extract_price (s : Soup) : Option String :=
  match s.priceWhole, s.priceSymbol with
  | some w, some sym =>
    let wt := pyStrip w
    let ft := match s.priceFraction with
      | some f => pyStrip f
      | none => ""
    let st := pyStrip sym
    if ft ≠ "" then some (wt ++ ft ++ " " ++ st)
    else some (wt ++ " " ++ st)
  | _, _ => none

/-- `extract_rating(soup)`:
`el.get_text(strip=True).split()[0] if el else "N/A"` — the `[0]` raises
`IndexError` when the element text contains no word. -/
def extract_rating (s : Soup) : Except PyError String :=
  match s.ratingAlt with
  | none => .ok "N/A"
  | some t =>
    match pySplitWs (pyStrip t) with
    | [] => .error .indexError
    | w :: _ => .ok w

/-- `extract_brand(soup)`: chained `replace`s then `strip`, `"N/A"` when
the byline element is absent. -/
def extract_brand (s : Soup) : String :=
  match s.bylineInfo with
  | none => "N/A"
  | some t =>
    pyStrip (pyReplace (pyReplace (pyReplace (pyStrip t) "Visit the" "") "Store" "") "Brand:" "")

/-- `extract_color(soup)`. -/
def extract_color (s : Soup) : String :=
  match s.colorSel with
  | some t => pyStrip t
  | none => "N/A"

/-- The key normalisation of `extract_product_details`:
`label.get_text(strip=True).rstrip(":").lower().replace(" ", "_").replace("-", "_")`. -/
def detailKey (raw : String) : String :=
  pyReplace (pyReplace (pyLower (pyRstripColon (pyStrip raw))) " " "_") "-" "_"

/-- Insertion into a Python dict with `String` values: overwriting keeps
the key's original position, a new key is appended. -/
def dictInsertS (d : List (String × String)) (k v : String) :
    List (String × String) :=
  if d.any (fun p => p.1 == k) then
    d.map (fun p => if p.1 == k then (p.1, v) else p)
  else d ++ [(k, v)]

/-- `extract_product_details(soup)`: rows with both label and value
present populate a dict keyed by the normalised label. -/
def extract_product_details (s : Soup) : List (String × String) :=
  s.detailRows.foldl
    (fun acc r =>
      match r.1, r.2 with
      | some l, some v => dictInsertS acc (detailKey l) (pyStrip v)
      | _, _ => acc)
    []

/-! ## The record dict and the incremental CSV writer

The record `data` is a Python dict `String → str | None`: insertion
order is preserved, overwriting keeps the original position (assoc-list
model).  The CSV file is modelled at cell granularity: a file is a list
of rows, each row a list of cell strings (the `csv` module's quoting
round-trips cells exactly, so the quoting layer is elided).  A missing
file is `none` — `open(csv_file, "a")` creates it, and the header is
written exactly when `os.path.isfile` was false before the open. -/

/-- Python-dict insertion for `Option String` values. -/
def dictInsert (d : List (String × Option String)) (k : String)
    (v : Option String) : List (String × Option String) :=
  if d.any (fun p => p.1 == k) then
    d.map (fun p => if p.1 == k then (p.1, v) else p)
  else d ++ [(k, v)]

/-- `data.update(kvs)` for a detail dict of plain strings. -/
def dictUpdate (d : List (String × Option String))
    (kvs : List (String × String)) : List (String × Option String) :=
  kvs.foldl (fun acc kv => dictInsert acc kv.1 (some kv.2)) d

/-- The keys of a record dict, in insertion order (`data.keys()`). -/
def dictKeys (d : List (String × Option String)) : List String :=
  d.map Prod.fst

/-- The cells `csv.DictWriter` emits for a record under
`fieldnames = data.keys()`: each value in key order, `None` as `""`. -/
def dictCells (d : List (String × Option String)) : List String :=
  d.map (fun p => p.2.getD "")

/-- One CSV file: rows of cells.  `none` = the file does not exist. -/
abbrev CsvFile := List (List String)

/-- The append block of `scrape_category` (lines 400–406):
`file_exists = os.path.isfile(csv_file)`; open in append mode;
`DictWriter(fieldnames=data.keys())`; write the header only when the file
did not exist; write the record's row. -/
def appendRecord (csvF : Option CsvFile) (data : List (String × Option String)) :
    CsvFile :=
  (match csvF with
   | none => [dictKeys data]
   | some rows => rows) ++ [dictCells data]

/-- `csv.DictReader` id-column read used to seed `scraped_ids`
(lines 320–323): the first line is the header, `row["id"]` is the cell
under the header's `id` column. -/
def csvIds (file : CsvFile) : List String :=
  match file with
  | [] => []
  | hdr :: rows =>
    match hdr.findIdx? (· == "id") with
    | none => []
    | some i => rows.map (fun r => r.getD i "")

/-- The ids of an optional file (`scraped_ids` starts empty when the
file does not exist). -/
def fileIds (csvF : Option CsvFile) : List String :=
  match csvF with
  | none => []
  | some f => csvIds f

/-! ## The per-category crawl (`scrape_category`) and `main`

One candidate item of a listing page, together with the environment its
visit will encounter.  Everything the Page Provider, the filesystem and
the network decide is data here. -/

structure ItemEnv where
  /-- `item.get("href")`. -/
  href : Option String
  /-- Page sources `handle_sorry_page` will observe on the product page
  (`srcAt` index `k` = source after `k` refreshes). -/
  sorrySrcs : List String
  /-- Whether `WebDriverWait(...presence of #productTitle)` succeeds. -/
  titleAppears : Bool
  /-- The parsed product page after `expand_details`. -/
  soup : Soup
  /-- Whether writing `TEXT_DIR/{pid}.txt` raises (caught and logged). -/
  textWriteFails : Bool
  /-- Whether `download_image` succeeds (it never raises). -/
  imgDownloadOk : Bool
  /-- Whether the CSV append block raises (NOT caught in the source). -/
  csvWriteFails : Bool
deriving DecidableEq, Repr

/-- The mutable state of one category crawl: the output CSV, the stems of
the side-artifact files written, the dedup set and the harvested count. -/
structure CrawlState where
  csvF : Option CsvFile
  texts : List String
  images : List String
  scrapedIds : List String
  totalScraped : Nat
deriving DecidableEq, Repr

/-- Outcome of a step: normal continuation, or a Python exception
propagating (with the state at the moment of the raise). -/
inductive StepOut where
  | ok (s : CrawlState)
  | raised (s : CrawlState) (e : PyError)
deriving DecidableEq, Repr

/-- `urljoin("https://www.amazon.com", u)` for the reference forms the
listing hrefs take: an absolute URL is kept, a scheme-relative or
root-relative reference is resolved against the fixed base, any other
relative reference is attached under the root (the base has an empty
path). -/
def urljoinAmazon (u : String) : String :=
  if strContains u "://" then u
  else if listPrefixOf ['/', '/'] u.toList then "https:" ++ u
  else if listPrefixOf ['/'] u.toList then "https://www.amazon.com" ++ u
  else "https://www.amazon.com/" ++ u

/-- The canonical product URL of a candidate href (line 346):
`urljoin("https://www.amazon.com", href.split("/ref")[0])`. -/
def canonUrl (href : String) : String :=
  urljoinAmazon (pySplitHead href "/ref")

/-- The record dict built at lines 374–383: the seven base fields, then
`data.update(extract_product_details(soup))`.  Building it evaluates
`extract_rating`, which can raise. -/
def buildData (pid url : String) (s : Soup) :
    Except PyError (List (String × Option String)) :=
  match extract_rating s with
  | .error e => .error e
  | .ok r =>
    .ok (dictUpdate
      [("id", some pid), ("url", some url), ("title", some (extract_title s)),
       ("price", extract_price s), ("rating", some r),
       ("brand", some (extract_brand s)), ("color", some (extract_color s))]
      (extract_product_details s))

/-- One iteration of the `for item in items` body (lines 340–411), minus
the cap check that the loop performs first.  Skips leave the state
untouched; the artifact writes, the CSV append and the dedup update
happen in source order; exceptions of the unguarded CSV append (and of
`extract_rating` inside the dict build) propagate as `raised`. -/
def processItem (st : CrawlState) (it : ItemEnv) : StepOut :=
  match it.href with
  | none => .ok st
  | some h =>
    if h = "" then .ok st
    else if ¬ strContains h "/dp/" then .ok st
    else
      let product_url := canonUrl h
      let pid := generate_id product_url
      if st.scrapedIds.contains pid then .ok st
      else if (handleErrorPage it.sorrySrcs 3).1 = false then .ok st
      else if ¬ it.titleAppears then .ok st
      else
        match buildData pid product_url it.soup with
        | .error e => .raised st e
        | .ok data =>
          let st1 := if it.textWriteFails then st
            else { st with texts := st.texts ++ [pid] }
          let st2 := match it.soup.imageUrl with
            | none => st1
            | some _ =>
              if it.imgDownloadOk then { st1 with images := st1.images ++ [pid] }
              else st1
          if it.csvWriteFails then .raised st2 .ioError
          else
            .ok { st2 with
              csvF := some (appendRecord st2.csvF data),
              scrapedIds := st2.scrapedIds ++ [pid],
              totalScraped := st2.totalScraped + 1 }

/-- The `for item in items` loop: stop once the cap is reached, propagate
a raised exception, else continue. -/
def runItems (maxPer : Nat) (st : CrawlState) : List ItemEnv → StepOut
  | [] => .ok st
  | it :: rest =>
    if maxPer ≤ st.totalScraped then .ok st
    else
      match processItem st it with
      | .ok st2 => runItems maxPer st2 rest
      | .raised s e => .raised s e

/-- One listing page: the candidates its item selector finds.  The
"next page" control is modelled by whether further listings follow. -/
structure ListingEnv where
  items : List ItemEnv
deriving DecidableEq, Repr

/-- The `while total_scraped < MAX_PER_CATEGORY` loop (lines 328–421):
re-check the cap, stop on a listing with no items ("end of results"),
run the item loop, advance to the next listing page or stop when the
next-page control is absent (end of the list). -/
def runListings (maxPer : Nat) (st : CrawlState) : List ListingEnv → StepOut
  | [] => .ok st
  | l :: rest =>
    if maxPer ≤ st.totalScraped then .ok st
    else if l.items.isEmpty then .ok st
    else
      match runItems maxPer st l.items with
      | .ok st2 => runListings maxPer st2 rest
      | .raised s e => .raised s e

/-- The initial state of `scrape_category`: `scraped_ids` is seeded from
the `id` column of the existing output CSV and from nothing else
(lines 318–323); no artifacts written, counter 0. -/
def initState (initFile : Option CsvFile) : CrawlState :=
  { csvF := initFile, texts := [], images := [],
    scrapedIds := fileIds initFile, totalScraped := 0 }

/-- `scrape_category` for one category: seed the dedup set from the
existing file, then drive the listing loop.  (The search-page fetch and
its best-effort recovery at lines 309–316 touch no modelled state; a
failed search-page recovery only logs and continues.) -/
def scrape_category (maxPer : Nat) (initFile : Option CsvFile)
    (listings : List ListingEnv) : StepOut :=
  runListings maxPer (initState initFile) listings

/-- One category's environment as `main` sees it. -/
structure CategoryEnv where
  initFile : Option CsvFile
  listings : List ListingEnv
deriving DecidableEq, Repr

/-- The `for name, node in CATEGORIES.items()` loop inside `main`'s
`try`: categories run in order until one raises; the exception is caught
by the run-level handler (logged), and no further category runs. -/
def mainGo (maxPer : Nat) (acc : List CrawlState) :
    List CategoryEnv → List CrawlState × Option PyError
  | [] => (acc, none)
  | c :: rest =>
    match scrape_category maxPer c.initFile c.listings with
    | .ok st => mainGo maxPer (acc ++ [st]) rest
    | .raised st e => (acc ++ [st], some e)

/-- `main()`: `driver = get_driver()` runs before the `try`, so a failure
to obtain the session propagates out of `main` (`none`); everything
inside the `try` is caught by `except Exception` and the run completes
with the states produced so far. -/
def mainRun (driverOk : Bool) (maxPer : Nat) (cats : List CategoryEnv) :
    Option (List CrawlState × Option PyError) :=
  if driverOk then some (mainGo maxPer [] cats) else none

/-! ## Supporting lemmas -/

/-- Rebuilding a string from its characters is the identity. -/
theorem stringMk_toList (s : String) : String.mk s.toList = s := by
  cases s; rfl

/-- `handle_sorry_page` when every in-loop classification sees a blocked
source: the loop exhausts its attempts and the result is the final check
on the source after `maxRetries` refreshes. -/
theorem handleErrorGo_allBlocked (srcs : List String) (maxRetries : Nat) :
    ∀ fuel attempt, attempt + fuel = maxRetries + 1 → 1 ≤ attempt →
    (∀ i, i < maxRetries → loopBlocked (srcAt srcs i) = true) →
    (handleErrorGo srcs maxRetries attempt fuel).1 =
      !finalBlocked (srcAt srcs maxRetries) := by
  intro fuel
  induction fuel with
  | zero => intro attempt _ _ _; simp [handleErrorGo]
  | succ n ih =>
    intro attempt hsum h1 hbl
    have hlt : attempt - 1 < maxRetries := by omega
    have hb := hbl (attempt - 1) hlt
    simp only [handleErrorGo, hb, Bool.not_true, Bool.false_eq_true, if_false]
    exact ih (attempt + 1) (by omega) (by omega) hbl

/-- `handle_sorry_page` returns the negated final check whenever all loop
checks are blocked. -/
theorem handleErrorPage_allBlocked (srcs : List String) (maxRetries : Nat)
    (hbl : ∀ i, i < maxRetries → loopBlocked (srcAt srcs i) = true) :
    (handleErrorPage srcs maxRetries).1 = !finalBlocked (srcAt srcs maxRetries) :=
  handleErrorGo_allBlocked srcs maxRetries maxRetries 1 (by omega) (by omega) hbl

/-- Inserting a key different from the head key keeps the head entry in
place (Python dicts preserve the position of existing keys). -/
theorem dictInsert_cons (k k' : String) (v v' : Option String)
    (d : List (String × Option String)) (h : ¬ k' = k) :
    ∃ d', dictInsert ((k, v) :: d) k' v' = (k, v) :: d' := by
  unfold dictInsert
  have hk : (k == k') = false := by
    simp [beq_iff_eq]; exact fun he => h he.symm
  by_cases hany : ((k, v) :: d).any (fun p => p.1 == k') = true
  · refine ⟨d.map (fun p => if p.1 == k' then (p.1, v') else p), ?_⟩
    simp [hany, hk]
    exact fun he => absurd he.symm h
  · refine ⟨d ++ [(k', v')], ?_⟩
    simp only [Bool.not_eq_true] at hany
    simp [hany]

/-- Updating with keys all different from the head key keeps the head
entry in place. -/
theorem dictUpdate_cons (k : String) (v : Option String)
    (kvs : List (String × String)) :
    ∀ d, (∀ q ∈ kvs, ¬ q.1 = k) →
    ∃ d', dictUpdate ((k, v) :: d) kvs = (k, v) :: d' := by
  induction kvs with
  | nil => exact fun d _ => ⟨d, rfl⟩
  | cons kv rest ih =>
    intro d hq
    obtain ⟨d1, hd1⟩ := dictInsert_cons k kv.1 v (some kv.2) d
      (hq kv (List.mem_cons_self kv rest))
    have : dictUpdate ((k, v) :: d) (kv :: rest) = dictUpdate ((k, v) :: d1) rest := by
      simp only [dictUpdate, List.foldl_cons, hd1]
    rw [this]
    exact ih d1 (fun q hqm => hq q (List.mem_cons_of_mem kv hqm))

/-- Membership survives an insertion under a different key. -/
theorem dictInsert_mem (d : List (String × Option String)) (k : String)
    (v : Option String) (p : String × Option String) (hp : p ∈ d)
    (hk : ¬ p.1 = k) : p ∈ dictInsert d k v := by
  unfold dictInsert
  by_cases hany : d.any (fun q => q.1 == k) = true
  · simp only [hany, if_true]
    exact List.mem_map.mpr ⟨p, hp, by simp [hk]⟩
  · simp only [Bool.not_eq_true] at hany
    simp only [hany, Bool.false_eq_true, if_false]
    exact List.mem_append_left _ hp

/-- Membership survives a whole update whose keys all differ from the
entry's key. -/
theorem dictUpdate_mem (kvs : List (String × String)) :
    ∀ (d : List (String × Option String)) (p : String × Option String),
    p ∈ d → (∀ q ∈ kvs, ¬ q.1 = p.1) → p ∈ dictUpdate d kvs := by
  induction kvs with
  | nil => exact fun d p hp _ => hp
  | cons kv rest ih =>
    intro d p hp hq
    have h1 : p ∈ dictInsert d kv.1 (some kv.2) :=
      dictInsert_mem d kv.1 (some kv.2) p hp
        (fun he => hq kv (List.mem_cons_self kv rest) he.symm)
    have : dictUpdate d (kv :: rest) = dictUpdate (dictInsert d kv.1 (some kv.2)) rest := by
      simp only [dictUpdate, List.foldl_cons]
    rw [this]
    exact ih _ p h1 (fun q hqm => hq q (List.mem_cons_of_mem kv hqm))

/-- The record dict that `scrape_category` builds for one item when
`extract_rating` returns `r`: the seven base fields updated with the
product details. -/
def dataOf (pid url r : String) (s : Soup) : List (String × Option String) :=
  dictUpdate
    [("id", some pid), ("url", some url), ("title", some (extract_title s)),
     ("price", extract_price s), ("rating", some r),
     ("brand", some (extract_brand s)), ("color", some (extract_color s))]
    (extract_product_details s)

/-- `buildData` succeeds exactly as `dataOf` when the rating extractor
returns normally. -/
theorem buildData_ok (pid url : String) (s : Soup) (r : String)
    (hr : extract_rating s = .ok r) :
    buildData pid url s = .ok (dataOf pid url r s) := by
  simp [buildData, hr, dataOf]

/-- The state produced by a successful append for one item. -/
def appendedState (st : CrawlState) (it : ItemEnv) (pid : String)
    (data : List (String × Option String)) : CrawlState :=
  { csvF := some (appendRecord st.csvF data),
    texts := st.texts ++ (if it.textWriteFails then [] else [pid]),
    images := st.images ++
      (match it.soup.imageUrl with
       | none => []
       | some _ => if it.imgDownloadOk then [pid] else []),
    scrapedIds := st.scrapedIds ++ [pid],
    totalScraped := st.totalScraped + 1 }

/-- The happy path of one item visit: fresh candidate, recovery
succeeds, the title anchor appears, the rating extractor returns, the
CSV append does not raise — the record is appended, the side artifacts
are written when their own writes succeed, and the identifier enters the
dedup set. -/
theorem processItem_append (st : CrawlState) (it : ItemEnv) (h r : String)
    (hh : it.href = some h) (hne : ¬ h = "")
    (hdp : strContains h "/dp/" = true)
    (hfresh : st.scrapedIds.contains (generate_id (canonUrl h)) = false)
    (hrec : (handleErrorPage it.sorrySrcs 3).1 = true)
    (htitle : it.titleAppears = true)
    (hr : extract_rating it.soup = .ok r)
    (hcsv : it.csvWriteFails = false) :
    processItem st it =
      .ok (appendedState st it (generate_id (canonUrl h))
            (dataOf (generate_id (canonUrl h)) (canonUrl h) r it.soup)) := by
  simp only [processItem, hh, hne, hdp, hfresh, hrec, htitle, hcsv,
    buildData_ok _ _ _ _ hr, appendedState, if_false, if_true,
    Bool.false_eq_true, not_false_eq_true, not_true_eq_false]
  cases htw : it.textWriteFails <;>
    cases himg : it.soup.imageUrl <;>
    cases hok : it.imgDownloadOk <;>
    simp [htw, himg, hok]

/-- Skip paths of one item visit: a candidate that is filtered out,
already harvested, fails recovery, or whose title anchor never appears
leaves the state untouched. -/
theorem processItem_skip (st : CrawlState) (it : ItemEnv) :
    (it.href = none → processItem st it = .ok st) ∧
    (∀ h, it.href = some h → h = "" → processItem st it = .ok st) ∧
    (∀ h, it.href = some h → strContains h "/dp/" = false →
      processItem st it = .ok st) ∧
    (∀ h, it.href = some h → ¬ h = "" → strContains h "/dp/" = true →
      st.scrapedIds.contains (generate_id (canonUrl h)) = true →
      processItem st it = .ok st) ∧
    (∀ h, it.href = some h → ¬ h = "" → strContains h "/dp/" = true →
      st.scrapedIds.contains (generate_id (canonUrl h)) = false →
      (handleErrorPage it.sorrySrcs 3).1 = false →
      processItem st it = .ok st) ∧
    (∀ h, it.href = some h → ¬ h = "" → strContains h "/dp/" = true →
      st.scrapedIds.contains (generate_id (canonUrl h)) = false →
      (handleErrorPage it.sorrySrcs 3).1 = true → it.titleAppears = false →
      processItem st it = .ok st) := by
  refine ⟨fun h0 => by simp [processItem, h0],
    fun h hh he => by simp [processItem, hh, he],
    fun h hh hdp => ?_,
    fun h hh hne hdp hdup => by
      have hmem : generate_id (canonUrl h) ∈ st.scrapedIds := by simpa using hdup
      simp [processItem, hh, hne, hdp, hmem],
    fun h hh hne hdp hfresh hrec => by
      simp [processItem, hh, hne, hdp, hfresh, hrec],
    fun h hh hne hdp hfresh hrec htitle => by
      simp [processItem, hh, hne, hdp, hfresh, hrec, htitle]⟩
  by_cases he : h = ""
  · simp [processItem, hh, he]
  · simp [processItem, hh, he, hdp]

/-! ## C7 — escalation timing of the recovery engine -/

/-- C7, counterexample.  The claim says that after the configured number
of recovery cycles without reaching Healthy the engine escalates (clears
session state) and *afterwards performs one final refresh cycle before
reporting its result*.  At `max_retries = 2` — the configuration
`scrape_category` uses for the search page (line 315) — with every
observed source still blocked, the recorded trace is
`[refresh, refresh, clearState]`: the session-state clear is the very
last action, and no refresh follows it before the result is reported. -/
theorem c7_counterexample :
    handleErrorPage
        ["sorry! something went wrong", "sorry! something went wrong",
         "sorry! something went wrong"] 2 =
      (false, [RecAction.refresh, RecAction.refresh, RecAction.clearState]) ∧
    (handleErrorPage
        ["sorry! something went wrong", "sorry! something went wrong",
         "sorry! something went wrong"] 2).2.getLast? =
      some RecAction.clearState := by
  constructor
  · rfl
  · rfl

/-- C7, amended.  The engine clears the client-side session/cache state
during its *second* recovery cycle (the `attempt == 2` test at line 207),
regardless of the configured maximum; with the item-page configuration
`max_retries = 3`, a page that stays blocked through all loop checks
produces the trace `[refresh, refresh, clearState, refresh]` — exactly
one further refresh cycle after the escalation — and the reported result
is the final check on the source after the third refresh. -/
theorem c7_amended (srcs : List String)
    (h0 : loopBlocked (srcAt srcs 0) = true)
    (h1 : loopBlocked (srcAt srcs 1) = true)
    (h2 : loopBlocked (srcAt srcs 2) = true) :
    handleErrorPage srcs 3 =
      (!finalBlocked (srcAt srcs 3),
       [RecAction.refresh, RecAction.refresh, RecAction.clearState,
        RecAction.refresh]) := by
  simp [handleErrorPage, handleErrorGo, h0, h1, h2]

/-- C7, witness for the amended theorem at a concrete blocked sequence. -/
theorem c7_amended_witness :
    handleErrorPage
        ["sorry! something went wrong", "sorry! something went wrong",
         "sorry! something went wrong", "sorry! something went wrong"] 3 =
      (false,
       [RecAction.refresh, RecAction.refresh, RecAction.clearState,
        RecAction.refresh]) := by
  have := c7_amended
    ["sorry! something went wrong", "sorry! something went wrong",
     "sorry! something went wrong", "sorry! something went wrong"]
    (by decide) (by decide) (by decide)
  rw [this]
  decide

/-! ## C9 — the rate governor -/

/-- C9, counterexample.  The claim says `pace()` never throws and that a
zero-or-negative configured interval is a no-op of zero duration.  With
`DELAY_RANGE = (-2, -1)` and a `random()` draw of `1/2`,
`random.uniform` yields `-3/2` and `time.sleep` raises `ValueError`. -/
theorem c9_counterexample :
    random_delay ((-2 : ℚ), (-1 : ℚ)) (1 / 2) = .error .valueError := by
  norm_num [random_delay, pySleep, pyUniform]

/-- C9, amended.  For a *non-negative* configured interval the pace never
throws: the slept duration is `min + (max - min) * u` for the uniform
draw `u ∈ [0, 1]`; it lies in `[min, max]` whenever `min ≤ max`, and the
zero interval `(0, 0)` sleeps exactly `0`.  A negative endpoint, by
`c9_counterexample`, can raise `ValueError`. -/
theorem c9_amended (a b u : ℚ) (ha : 0 ≤ a) (hb : 0 ≤ b)
    (hu0 : 0 ≤ u) (hu1 : u ≤ 1) :
    random_delay (a, b) u = .ok (a + (b - a) * u) ∧
    (a ≤ b → a ≤ a + (b - a) * u ∧ a + (b - a) * u ≤ b) ∧
    (a = 0 → b = 0 → a + (b - a) * u = 0) := by
  refine ⟨?_, fun hab => ⟨by nlinarith, by nlinarith⟩, fun h0 h1 => by
    rw [h0, h1]; ring⟩
  have hnn : ¬ (a + (b - a) * u < 0) := by nlinarith
  simp [random_delay, pySleep, pyUniform, hnn]

/-- C9, witness: `DELAY_RANGE = (2, 4)` at the draw `1/2` sleeps `3`. -/
theorem c9_amended_witness :
    random_delay ((2 : ℚ), (4 : ℚ)) (1 / 2) = .ok 3 := by
  have h := c9_amended 2 4 (1 / 2) (by norm_num) (by norm_num)
    (by norm_num) (by norm_num)
  rw [h.1]
  norm_num

/-! ## C10 — totality of the simple field extractors -/

/-- A product-page snapshot whose rating element is present but carries
only whitespace text. -/
def soupBlankRating : Soup :=
  { productTitle := some "Some Book", priceWhole := none,
    priceFraction := none, priceSymbol := none, ratingAlt := some "  ",
    bylineInfo := none, colorSel := none, detailRows := [],
    aboutText := "", imageUrl := none }

/-- C10, counterexample.  The claim says the title, rating, brand and
color extractors are total and never raise.  `extract_rating` evaluates
`el.get_text(strip=True).split()[0]`; on a snapshot whose
`span.a-icon-alt` element is present with whitespace-only text, `split()`
yields the empty list and the `[0]` subscript raises `IndexError`. -/
theorem c10_counterexample :
    soupBlankRating.ratingAlt = some "  " ∧
    extract_rating soupBlankRating = .error .indexError := by
  constructor
  · rfl
  · rfl

/-- C10, amended.  `extract_title`, `extract_brand` and `extract_color`
are total string-valued functions returning the literal `"N/A"` when
their element is absent, and `extract_rating` returns `"N/A"` when its
element is absent — but when the rating element is present with
whitespace-only text `extract_rating` raises `IndexError` (and returns
the first word otherwise).  Only `extract_price` uses `None` for a
missing value: it is `none` exactly when the whole-part or the symbol
element is missing. -/
theorem c10_amended (s : Soup) :
    (s.productTitle = none → extract_title s = "N/A") ∧
    (s.bylineInfo = none → extract_brand s = "N/A") ∧
    (s.colorSel = none → extract_color s = "N/A") ∧
    (s.ratingAlt = none → extract_rating s = .ok "N/A") ∧
    (∀ t, s.ratingAlt = some t → pySplitWs (pyStrip t) = [] →
      extract_rating s = .error .indexError) ∧
    (∀ t w ws, s.ratingAlt = some t → pySplitWs (pyStrip t) = w :: ws →
      extract_rating s = .ok w) ∧
    ((extract_price s).isNone ↔ s.priceWhole = none ∨ s.priceSymbol = none) := by
  refine ⟨fun h => by simp [extract_title, h],
    fun h => by simp [extract_brand, h],
    fun h => by simp [extract_color, h],
    fun h => by simp [extract_rating, h],
    fun t ht hsp => by simp [extract_rating, ht, hsp],
    fun t w ws ht hsp => by simp [extract_rating, ht, hsp],
    ?_⟩
  unfold extract_price
  rcases hw : s.priceWhole with _ | w <;> rcases hs : s.priceSymbol with _ | sym <;>
    simp [hw, hs]
  split <;> simp

/-- C10, witness: on `soupBlankRating` the absent byline gives `"N/A"`
and the whitespace rating text raises. -/
theorem c10_amended_witness :
    extract_brand soupBlankRating = "N/A" ∧
    extract_rating soupBlankRating = .error .indexError := by
  refine ⟨(c10_amended soupBlankRating).2.1 rfl, ?_⟩
  exact (c10_amended soupBlankRating).2.2.2.2.1 "  " rfl (by decide)

/-! ## C3 — terminal recovery failure and the resulting skip -/

/-- C3, counterexample.  The claim says that a page whose content still
matches the soft-block signatures after the maximum number of recovery
cycles makes the routine return `False`.  The in-loop classification
(line 171) treats the `"we're sorry"` marker as a block signature, but
the final check (line 217) tests only the error-image marker and
`"sorry! something went wrong"`.  A page showing only `"we're sorry"`
through every cycle therefore still matches the soft-block signatures
after all `max_retries = 3` cycles, yet `handle_sorry_page` returns
`True`. -/
theorem c3_counterexample :
    loopBlocked (srcAt
      [apologyMarker, apologyMarker, apologyMarker, apologyMarker] 3) = true ∧
    (handleErrorPage
      [apologyMarker, apologyMarker, apologyMarker, apologyMarker] 3).1 = true := by
  constructor
  · decide
  · decide

/-- C3, amended.  For every page whose content still matches the
*final-check* signatures (the error-image marker or
`"sorry! something went wrong"`, line 217) after the maximum number of
recovery cycles, the recovery routine returns terminal failure `False`,
and the crawler then skips that item and continues: the state is
unchanged, so no CSV row is appended, no side artifact is written, and
the identifier is not added to the dedup index.  (A page matching only
the `"we're sorry"` loop signature passes the final check instead, by
`c3_counterexample`.) -/
theorem c3_amended (srcs : List String) (st : CrawlState) (it : ItemEnv)
    (h : String)
    (hloop : ∀ i, i < 3 → loopBlocked (srcAt srcs i) = true)
    (hfin : finalBlocked (srcAt srcs 3) = true)
    (hh : it.href = some h) (hne : ¬ h = "")
    (hdp : strContains h "/dp/" = true)
    (hfresh : st.scrapedIds.contains (generate_id (canonUrl h)) = false)
    (hsrcs : it.sorrySrcs = srcs) :
    (handleErrorPage srcs 3).1 = false ∧ processItem st it = .ok st := by
  have hfail : (handleErrorPage srcs 3).1 = false := by
    rw [handleErrorPage_allBlocked srcs 3 hloop, hfin]
    rfl
  refine ⟨hfail, ?_⟩
  exact (processItem_skip st it).2.2.2.2.1 h hh hne hdp hfresh (by rw [hsrcs]; exact hfail)

/-- A minimal healthy product-page snapshot: title present, everything
else absent. -/
def soupTitleOnly : Soup :=
  { productTitle := some "T", priceWhole := none, priceFraction := none,
    priceSymbol := none, ratingAlt := none, bylineInfo := none,
    colorSel := none, detailRows := [], aboutText := "", imageUrl := none }

/-- A permanently blocked page-source sequence. -/
def blockedSrcs : List String :=
  ["sorry! something went wrong", "sorry! something went wrong",
   "sorry! something went wrong", "sorry! something went wrong"]

/-- A candidate whose product page stays blocked through every recovery
cycle. -/
def itemBlocked : ItemEnv :=
  { href := some "/a/dp/B0C3", sorrySrcs := blockedSrcs,
    titleAppears := true, soup := soupTitleOnly, textWriteFails := false,
    imgDownloadOk := false, csvWriteFails := false }

/-- C3, witness: a concrete permanently blocked product page is skipped
with the crawl state untouched. -/
theorem c3_amended_witness :
    (handleErrorPage blockedSrcs 3).1 = false ∧
    processItem (initState none) itemBlocked = .ok (initState none) :=
  c3_amended blockedSrcs (initState none) itemBlocked "/a/dp/B0C3"
    (by decide) (by decide) rfl (by decide) (by decide) (by decide) rfl

/-! ## C4 — the `InsufficientData` gate and null prices -/

/-- C4.  With recovery succeeded on a fresh candidate: the crawler skips
without persisting anything exactly when the mandatory title anchor
(`#productTitle`, awaited at line 365) is absent — the state is returned
untouched; and a snapshot whose title is present but whose price
elements are missing yields `extract_price = None`, the record is still
built and appended with a null price field (serialised as an empty cell)
rather than treated as a failure. -/
theorem c4_insufficient_data (st : CrawlState) (it : ItemEnv) (h : String)
    (hh : it.href = some h) (hne : ¬ h = "")
    (hdp : strContains h "/dp/" = true)
    (hfresh : st.scrapedIds.contains (generate_id (canonUrl h)) = false)
    (hrec : (handleErrorPage it.sorrySrcs 3).1 = true) :
    (it.titleAppears = false → processItem st it = .ok st) ∧
    ((it.soup.priceWhole = none ∨ it.soup.priceSymbol = none) →
      extract_price it.soup = none) ∧
    (∀ r, it.titleAppears = true → extract_rating it.soup = .ok r →
      it.csvWriteFails = false →
      (∀ q ∈ extract_product_details it.soup, ¬ q.1 = "price") →
      processItem st it =
        .ok (appendedState st it (generate_id (canonUrl h))
              (dataOf (generate_id (canonUrl h)) (canonUrl h) r it.soup)) ∧
      ("price", extract_price it.soup) ∈
        dataOf (generate_id (canonUrl h)) (canonUrl h) r it.soup) := by
  refine ⟨fun htitle =>
      (processItem_skip st it).2.2.2.2.2 h hh hne hdp hfresh hrec htitle,
    fun hp => ?_, fun r htitle hr hcsv hnp => ?_⟩
  · rcases hp with hp | hp <;> simp [extract_price, hp]
  · refine ⟨processItem_append st it h r hh hne hdp hfresh hrec htitle hr hcsv, ?_⟩
    exact dictUpdate_mem (extract_product_details it.soup) _
      ("price", extract_price it.soup) (by simp) (fun q hq => hnp q hq)

/-- A snapshot with a title and a rating text but no price elements. -/
def soupNoPrice : Soup :=
  { productTitle := some "A Book", priceWhole := none,
    priceFraction := none, priceSymbol := none,
    ratingAlt := some "4.5 out of 5 stars", bylineInfo := none,
    colorSel := none, detailRows := [], aboutText := "", imageUrl := none }

/-- A healthy candidate whose page has no price elements. -/
def itemNoPrice : ItemEnv :=
  { href := some "/a/dp/B0C4", sorrySrcs := ["all fine"],
    titleAppears := true, soup := soupNoPrice, textWriteFails := false,
    imgDownloadOk := false, csvWriteFails := false }

/-- C4, witness: a concrete snapshot with a title but no price elements
is appended with a null price field. -/
theorem c4_witness :
    processItem (initState none) itemNoPrice =
      .ok (appendedState (initState none) itemNoPrice
        (generate_id (canonUrl "/a/dp/B0C4"))
        (dataOf (generate_id (canonUrl "/a/dp/B0C4")) (canonUrl "/a/dp/B0C4")
          "4.5" soupNoPrice)) ∧
    ("price", none) ∈
      dataOf (generate_id (canonUrl "/a/dp/B0C4")) (canonUrl "/a/dp/B0C4")
        "4.5" soupNoPrice := by
  have h := (c4_insufficient_data (initState none) itemNoPrice "/a/dp/B0C4"
    rfl (by decide) (by decide) (by decide) (by decide)).2.2 "4.5"
    rfl rfl rfl (by decide)
  have hpn : extract_price soupNoPrice = (none : Option String) := rfl
  exact ⟨h.1, by simpa [hpn] using h.2⟩

/-! ## C2 — index update only after the record append -/

/-- The state after the side-artifact phase of one item (about-text file
and image download), before the CSV append. -/
def sideState (st : CrawlState) (it : ItemEnv) (pid : String) : CrawlState :=
  { st with
    texts := st.texts ++ (if it.textWriteFails then [] else [pid]),
    images := st.images ++
      (match it.soup.imageUrl with
       | none => []
       | some _ => if it.imgDownloadOk then [pid] else []) }

/-- When the rating extractor raises inside the record build, the item's
pipeline raises with the state untouched. -/
theorem processItem_raised_rating (st : CrawlState) (it : ItemEnv)
    (h : String) (e : PyError)
    (hh : it.href = some h) (hne : ¬ h = "")
    (hdp : strContains h "/dp/" = true)
    (hfresh : st.scrapedIds.contains (generate_id (canonUrl h)) = false)
    (hrec : (handleErrorPage it.sorrySrcs 3).1 = true)
    (htitle : it.titleAppears = true)
    (hr : extract_rating it.soup = .error e) :
    processItem st it = .raised st e := by
  have hmem : generate_id (canonUrl h) ∉ st.scrapedIds := by simpa using hfresh
  simp [processItem, hh, hne, hdp, hmem, hrec, htitle, buildData, hr]

/-- When the CSV append raises, the item's pipeline raises after the
side-artifact phase: the dedup set, the output file and the counter are
unchanged. -/
theorem processItem_raised_csv (st : CrawlState) (it : ItemEnv)
    (h r : String)
    (hh : it.href = some h) (hne : ¬ h = "")
    (hdp : strContains h "/dp/" = true)
    (hfresh : st.scrapedIds.contains (generate_id (canonUrl h)) = false)
    (hrec : (handleErrorPage it.sorrySrcs 3).1 = true)
    (htitle : it.titleAppears = true)
    (hr : extract_rating it.soup = .ok r)
    (hcsv : it.csvWriteFails = true) :
    processItem st it = .raised (sideState st it (generate_id (canonUrl h))) .ioError := by
  simp only [processItem, hh, hne, hdp, hfresh, hrec, htitle, hcsv,
    buildData_ok _ _ _ _ hr, sideState, if_false, if_true,
    Bool.false_eq_true, not_false_eq_true, not_true_eq_false]
  cases htw : it.textWriteFails <;>
    cases himg : it.soup.imageUrl <;>
    cases hok : it.imgDownloadOk <;>
    simp [htw, himg, hok]

/-- Exhaustive description of one item visit: either a skip that leaves
the state untouched, or an exception carried with a state whose dedup
set, output file and counter equal the incoming ones, or the successful
append. -/
theorem processItem_total (st : CrawlState) (it : ItemEnv) :
    processItem st it = .ok st ∨
    (∃ e s2, processItem st it = .raised s2 e ∧
      s2.scrapedIds = st.scrapedIds ∧ s2.csvF = st.csvF ∧
      s2.totalScraped = st.totalScraped) ∨
    (∃ h r, it.href = some h ∧
      st.scrapedIds.contains (generate_id (canonUrl h)) = false ∧
      extract_rating it.soup = .ok r ∧
      processItem st it =
        .ok (appendedState st it (generate_id (canonUrl h))
              (dataOf (generate_id (canonUrl h)) (canonUrl h) r it.soup))) := by
  rcases hh : it.href with _ | h
  · exact Or.inl ((processItem_skip st it).1 hh)
  by_cases hne : h = ""
  · exact Or.inl ((processItem_skip st it).2.1 h hh hne)
  rcases hdp : strContains h "/dp/" with _ | _
  · exact Or.inl ((processItem_skip st it).2.2.1 h hh hdp)
  rcases hdup : st.scrapedIds.contains (generate_id (canonUrl h)) with _ | _
  swap
  · exact Or.inl ((processItem_skip st it).2.2.2.1 h hh hne hdp hdup)
  rcases hrec : (handleErrorPage it.sorrySrcs 3).1 with _ | _
  · exact Or.inl ((processItem_skip st it).2.2.2.2.1 h hh hne hdp hdup hrec)
  rcases htitle : it.titleAppears with _ | _
  · exact Or.inl ((processItem_skip st it).2.2.2.2.2 h hh hne hdp hdup hrec htitle)
  rcases hr : extract_rating it.soup with e | r
  · exact Or.inr (Or.inl ⟨e, st,
      processItem_raised_rating st it h e hh hne hdp hdup hrec htitle hr,
      rfl, rfl, rfl⟩)
  rcases hcsv : it.csvWriteFails with _ | _
  · exact Or.inr (Or.inr ⟨h, r, rfl, hdup, rfl,
      processItem_append st it h r hh hne hdp hdup hrec htitle hr hcsv⟩)
  · exact Or.inr (Or.inl ⟨.ioError, sideState st it (generate_id (canonUrl h)),
      processItem_raised_csv st it h r hh hne hdp hdup hrec htitle hr hcsv,
      rfl, rfl, rfl⟩)

/-- A candidate that is healthy in every respect except that writing its
about-text side artifact raises. -/
def itemTextFail : ItemEnv :=
  { href := some "/b/dp/B0C2", sorrySrcs := ["all fine"],
    titleAppears := true, soup := soupTitleOnly, textWriteFails := true,
    imgDownloadOk := false, csvWriteFails := false }

/-- C2, counterexample.  The claim says that if persisting the record
*or an artifact* fails, the identifier is NOT added to the index.  The
about-text write (lines 387–391) sits in its own `try/except` that only
logs: on `itemTextFail` the artifact write fails, yet the record is
appended and the identifier IS added to the dedup index. -/
theorem c2_counterexample :
    itemTextFail.textWriteFails = true ∧
    processItem (initState none) itemTextFail =
      .ok { csvF := some
              [["id", "url", "title", "price", "rating", "brand", "color"],
               [generate_id "https://www.amazon.com/b/dp/B0C2",
                "https://www.amazon.com/b/dp/B0C2", "T", "", "N/A", "N/A", "N/A"]],
            texts := [], images := [],
            scrapedIds := [generate_id "https://www.amazon.com/b/dp/B0C2"],
            totalScraped := 1 } := by
  constructor
  · rfl
  · decide

/-- C2, amended.  The identifier is added to the dedup index only
together with a completed CSV append of the record: if the item's
pipeline raises (in particular when the unguarded CSV append at
lines 400–406 fails), the index and the file are unchanged, so a future
run retries the item; in every normal outcome the index either is
unchanged or grew by exactly the one identifier whose record row was
just appended.  Failures of the side artifacts (about text, image) are
caught or checked, merely logged, and do NOT prevent the record append
or the index update. -/
theorem c2_amended (st : CrawlState) (it : ItemEnv) :
    (∀ s e, processItem st it = .raised s e →
      s.scrapedIds = st.scrapedIds ∧ s.csvF = st.csvF) ∧
    (∀ s, processItem st it = .ok s →
      s.scrapedIds = st.scrapedIds ∨
      ∃ pid data, s.scrapedIds = st.scrapedIds ++ [pid] ∧
        s.csvF = some (appendRecord st.csvF data)) ∧
    (∀ h r, it.href = some h → ¬ h = "" → strContains h "/dp/" = true →
      st.scrapedIds.contains (generate_id (canonUrl h)) = false →
      (handleErrorPage it.sorrySrcs 3).1 = true → it.titleAppears = true →
      extract_rating it.soup = .ok r → it.csvWriteFails = false →
      it.textWriteFails = true →
      ∃ s, processItem st it = .ok s ∧ s.texts = st.texts ∧
        s.scrapedIds = st.scrapedIds ++ [generate_id (canonUrl h)] ∧
        s.csvF = some (appendRecord st.csvF
          (dataOf (generate_id (canonUrl h)) (canonUrl h) r it.soup))) := by
  refine ⟨fun s e heq => ?_, fun s heq => ?_, fun h r hh hne hdp hfresh hrec htitle hr hcsv htw => ?_⟩
  · rcases processItem_total st it with h1 | ⟨e2, s2, h2, hs, hc, _⟩ | ⟨h, r, _, _, _, h3⟩
    · rw [h1] at heq; cases heq
    · rw [h2] at heq
      injection heq with hse he
      subst hse
      exact ⟨hs, hc⟩
    · rw [h3] at heq; cases heq
  · rcases processItem_total st it with h1 | ⟨e2, s2, h2, hs, hc, _⟩ | ⟨h, r, _, hfresh, _, h3⟩
    · rw [h1] at heq
      injection heq with hse
      exact Or.inl (hse ▸ rfl)
    · rw [h2] at heq; cases heq
    · rw [h3] at heq
      injection heq with hse
      subst hse
      exact Or.inr ⟨generate_id (canonUrl h),
        dataOf (generate_id (canonUrl h)) (canonUrl h) r it.soup, rfl, rfl⟩
  · refine ⟨appendedState st it (generate_id (canonUrl h))
      (dataOf (generate_id (canonUrl h)) (canonUrl h) r it.soup),
      processItem_append st it h r hh hne hdp hfresh hrec htitle hr hcsv,
      ?_, rfl, rfl⟩
    simp [appendedState, htw]

/-- C2, witness for the amended theorem: on `itemTextFail` the pipeline
raises nowhere, the text artifact list stays empty, and the identifier
is appended together with its record row. -/
theorem c2_amended_witness :
    ∃ s, processItem (initState none) itemTextFail = .ok s ∧
      s.texts = (initState none).texts ∧
      s.scrapedIds = (initState none).scrapedIds ++
        [generate_id (canonUrl "/b/dp/B0C2")] ∧
      s.csvF = some (appendRecord (initState none).csvF
        (dataOf (generate_id (canonUrl "/b/dp/B0C2")) (canonUrl "/b/dp/B0C2")
          "N/A" itemTextFail.soup)) :=
  (c2_amended (initState none) itemTextFail).2.2 "/b/dp/B0C2" "N/A"
    rfl (by decide) (by decide) (by decide) (by decide) rfl rfl rfl rfl

/-! ## C6 — the incremental CSV writer -/

/-- A sequence of appends through the writer block, from a given file
state (each record re-runs lines 400–406). -/
def writeSeq (ds : List (List (String × Option String)))
    (csvF : Option CsvFile) : Option CsvFile :=
  ds.foldl (fun f d => some (appendRecord f d)) csvF

/-- `csv.DictReader`-style parse of a whole file: the first row is the
header, every later row is read as the header keys zipped with its
cells. -/
def parseCsv (file : CsvFile) : List (List (String × String)) :=
  match file with
  | [] => []
  | hdr :: rows => rows.map (fun r => hdr.zip r)

/-- Appending to an existing file only extends it with the record rows,
in order. -/
theorem writeSeq_some (ds : List (List (String × Option String))) :
    ∀ f : CsvFile, writeSeq ds (some f) = some (f ++ ds.map dictCells) := by
  induction ds with
  | nil => intro f; simp [writeSeq]
  | cons d rest ih =>
    intro f
    have : writeSeq (d :: rest) (some f) = writeSeq rest (some (f ++ [dictCells d])) := by
      simp [writeSeq, appendRecord]
    rw [this, ih]
    simp

/-- C6.  The writer creates the header exactly once — as the very first
line, derived from the first record's field set — and only because the
destination file did not exist at that first append (an existing file is
only ever extended); previously appended rows are never rewritten or
reordered: every earlier file content stays a prefix; and records
appended later (in particular ones that introduce additional columns)
leave the earlier rows and their header-parse untouched, the whole file
still parsing row by row. -/
theorem c6_writer (d : List (String × Option String))
    (ds more : List (List (String × Option String))) :
    writeSeq (d :: ds) none = some (dictKeys d :: (d :: ds).map dictCells) ∧
    (∀ (f : CsvFile) (e : List (String × Option String)),
      appendRecord (some f) e = f ++ [dictCells e]) ∧
    writeSeq ((d :: ds) ++ more) none =
      some ((dictKeys d :: (d :: ds).map dictCells) ++ more.map dictCells) ∧
    parseCsv ((dictKeys d :: (d :: ds).map dictCells) ++ more.map dictCells) =
      parseCsv (dictKeys d :: (d :: ds).map dictCells) ++
        (more.map dictCells).map (fun r => (dictKeys d).zip r) := by
  have h1 : writeSeq (d :: ds) none = some (dictKeys d :: (d :: ds).map dictCells) := by
    have : writeSeq (d :: ds) none = writeSeq ds (some [dictKeys d, dictCells d]) := by
      simp [writeSeq, appendRecord]
    rw [this, writeSeq_some]
    simp
  refine ⟨h1, fun f e => by simp [appendRecord], ?_, ?_⟩
  · have : writeSeq ((d :: ds) ++ more) none =
        writeSeq (ds ++ more) (some [dictKeys d, dictCells d]) := by
      simp [writeSeq, appendRecord]
    rw [this, writeSeq_some]
    simp
  · simp [parseCsv]

/-! ## C8 — identifier determinism and canonicalisation -/

/-- The characters of the tracking-suffix separator `"/ref"`. -/
def refL : List Char := ['/', 'r', 'e', 'f']

/-- Every list is a prefix of itself extended. -/
theorem listPrefixOf_append_self (xs ys : List Char) :
    listPrefixOf xs (xs ++ ys) = true := by
  induction xs <;> simp [listPrefixOf, *]

/-- `"/ref"` cannot begin inside a non-empty block that it does not
already begin in, even after `"/ref"` itself is appended: the separator's
own characters cannot complete a partial match, because no proper prefix
of `"/ref"` is also a suffix of it. -/
theorem refL_no_overlap :
    ∀ (xs t : List Char), xs ≠ [] → listPrefixOf refL xs = false →
    listPrefixOf refL (xs ++ refL ++ t) = false
  | [], _, hne, _ => absurd rfl hne
  | [c], t, _, _ => by simp [refL, listPrefixOf]
  | [c, d], t, _, _ => by simp [refL, listPrefixOf]
  | [c, d, e], t, _, _ => by simp [refL, listPrefixOf]
  | c :: d :: e :: f :: rest, t, _, h => by
    simp only [refL, listPrefixOf, List.cons_append, List.append_nil] at h ⊢
    simpa using h

/-- Splitting at `"/ref"` recovers exactly the canonical part when the
canonical part itself contains no `"/ref"`. -/
theorem splitHeadGo_strip :
    ∀ (a t : List Char), listInfixOf refL a = false →
    splitHeadGo refL (a ++ refL ++ t) = a := by
  intro a
  induction a with
  | nil =>
    intro t _
    simp only [List.nil_append]
    have : refL ++ t = '/' :: ('r' :: 'e' :: 'f' :: t) := by simp [refL]
    rw [this, splitHeadGo]
    have hpre : listPrefixOf refL ('/' :: 'r' :: 'e' :: 'f' :: t) = true := by
      have := listPrefixOf_append_self refL t
      simpa [refL] using this
    simp [hpre]
  | cons c cs ih =>
    intro t h
    simp only [listInfixOf, Bool.or_eq_false_iff] at h
    obtain ⟨h1, h2⟩ := h
    have hkey : listPrefixOf refL (c :: (cs ++ refL ++ t)) = false := by
      have := refL_no_overlap (c :: cs) t (by simp) h1
      simpa using this
    calc splitHeadGo refL ((c :: cs) ++ refL ++ t)
        = splitHeadGo refL (c :: (cs ++ refL ++ t)) := by simp
      _ = c :: splitHeadGo refL (cs ++ refL ++ t) := by
          rw [splitHeadGo, hkey]; simp
      _ = c :: cs := by rw [ih t h2]

/-- Splitting at `"/ref"` is the identity on a string not containing it. -/
theorem splitHeadGo_id :
    ∀ a : List Char, listInfixOf refL a = false → splitHeadGo refL a = a := by
  intro a
  induction a with
  | nil => intro _; rfl
  | cons c cs ih =>
    intro h
    simp only [listInfixOf, Bool.or_eq_false_iff] at h
    rw [splitHeadGo, h.1]
    simp [ih h.2]

/-- String-level canonicalisation: appending any `"/ref..."` tracking
suffix to a clean href does not change `href.split("/ref")[0]`. -/
theorem pySplitHead_strip (a t : String)
    (ha : listInfixOf refL a.toList = false) :
    pySplitHead (a ++ "/ref" ++ t) "/ref" = a ∧ pySplitHead a "/ref" = a := by
  have hsep : ("/ref" : String).toList = refL := rfl
  constructor
  · have hl : (a ++ "/ref" ++ t).toList = a.toList ++ refL ++ t.toList := by
      simp [String.toList]
      rfl
    rw [pySplitHead, hsep, hl, splitHeadGo_strip a.toList t.toList ha,
      stringMk_toList]
  · rw [pySplitHead, hsep, splitHeadGo_id a.toList ha, stringMk_toList]

/-- C8.  The item identifier is a deterministic function of the
canonicalised URL: the crawler first strips the `"/ref..."` tracking
suffix (so hrefs differing only in that suffix canonicalise identically),
identical URLs always yield the identical identifier, and that identifier
is simultaneously the `id` field of the appended record, the dedup key
added to the index, and the filename stem of the about-text and image
side artifacts. -/
theorem c8_identifier (u v a t h r : String) (st : CrawlState) (it : ItemEnv)
    (huv : u = v)
    (ha : listInfixOf refL a.toList = false)
    (hh : it.href = some h) (hne : ¬ h = "")
    (hdp : strContains h "/dp/" = true)
    (hfresh : st.scrapedIds.contains (generate_id (canonUrl h)) = false)
    (hrec : (handleErrorPage it.sorrySrcs 3).1 = true)
    (htitle : it.titleAppears = true)
    (hr : extract_rating it.soup = .ok r)
    (hcsv : it.csvWriteFails = false)
    (htext : it.textWriteFails = false)
    (himg : ∃ iu, it.soup.imageUrl = some iu) (hok : it.imgDownloadOk = true)
    (hnc : ∀ q ∈ extract_product_details it.soup, ¬ q.1 = "id") :
    generate_id u = generate_id v ∧
    pySplitHead (a ++ "/ref" ++ t) "/ref" = a ∧
    pySplitHead a "/ref" = a ∧
    canonUrl (a ++ "/ref" ++ t) = canonUrl a ∧
    (∃ d', processItem st it =
      .ok { csvF := some (appendRecord st.csvF
              (("id", some (generate_id (canonUrl h))) :: d')),
            texts := st.texts ++ [generate_id (canonUrl h)],
            images := st.images ++ [generate_id (canonUrl h)],
            scrapedIds := st.scrapedIds ++ [generate_id (canonUrl h)],
            totalScraped := st.totalScraped + 1 }) := by
  obtain ⟨hsplit, hid⟩ := pySplitHead_strip a t ha
  refine ⟨by rw [huv], hsplit, hid, by rw [canonUrl, hsplit, canonUrl, hid], ?_⟩
  obtain ⟨d', hd'⟩ := dictUpdate_cons "id" (some (generate_id (canonUrl h)))
    (extract_product_details it.soup)
    [("url", some (canonUrl h)), ("title", some (extract_title it.soup)),
     ("price", extract_price it.soup), ("rating", some r),
     ("brand", some (extract_brand it.soup)),
     ("color", some (extract_color it.soup))] hnc
  refine ⟨d', ?_⟩
  have happ := processItem_append st it h r hh hne hdp hfresh hrec htitle hr hcsv
  rw [happ]
  obtain ⟨iu, hiu⟩ := himg
  simp only [appendedState, dataOf, hd', htext, hiu, hok, if_false, if_true]
  simp

/-- A full product snapshot with price, rating and image, for the C8
witness. -/
def soupTracked : Soup :=
  { productTitle := some "A Book", priceWhole := some "12",
    priceFraction := some "99", priceSymbol := some "$",
    ratingAlt := some "4.0 out of 5 stars", bylineInfo := none,
    colorSel := none, detailRows := [], aboutText := "about",
    imageUrl := some "http://img.example/x.jpg" }

/-- A healthy candidate carrying a tracking suffix, an image and a
rating, for the C8 witness. -/
def itemTracked : ItemEnv :=
  { href := some ("/a/dp/B0C8" ++ "/ref" ++ "=sr_1_1"),
    sorrySrcs := ["all fine"], titleAppears := true,
    soup := soupTracked,
    textWriteFails := false, imgDownloadOk := true, csvWriteFails := false }

/-- C8, witness at a concrete tracked href. -/
theorem c8_identifier_witness :
    generate_id "x" = generate_id "x" ∧
    pySplitHead ("/a/dp/B0C8" ++ "/ref" ++ "=sr_1_1") "/ref" = "/a/dp/B0C8" ∧
    pySplitHead "/a/dp/B0C8" "/ref" = "/a/dp/B0C8" ∧
    canonUrl ("/a/dp/B0C8" ++ "/ref" ++ "=sr_1_1") = canonUrl "/a/dp/B0C8" ∧
    (∃ d', processItem (initState none) itemTracked =
      .ok { csvF := some (appendRecord (initState none).csvF
              (("id", some (generate_id
                 (canonUrl ("/a/dp/B0C8" ++ "/ref" ++ "=sr_1_1")))) :: d')),
            texts := (initState none).texts ++
              [generate_id (canonUrl ("/a/dp/B0C8" ++ "/ref" ++ "=sr_1_1"))],
            images := (initState none).images ++
              [generate_id (canonUrl ("/a/dp/B0C8" ++ "/ref" ++ "=sr_1_1"))],
            scrapedIds := (initState none).scrapedIds ++
              [generate_id (canonUrl ("/a/dp/B0C8" ++ "/ref" ++ "=sr_1_1"))],
            totalScraped := (initState none).totalScraped + 1 }) :=
  c8_identifier "x" "x" "/a/dp/B0C8" "=sr_1_1"
    ("/a/dp/B0C8" ++ "/ref" ++ "=sr_1_1") "4.0" (initState none) itemTracked
    rfl (by decide) rfl (by decide) (by decide) (by decide) (by decide) rfl
    rfl rfl rfl ⟨"http://img.example/x.jpg", rfl⟩ rfl (by decide)

/-! ## C5 — where unexpected exceptions are caught -/

/-- First healthy candidate of the C5 run. -/
def it5a : ItemEnv :=
  { href := some "/a/dp/C5A", sorrySrcs := ["all fine"],
    titleAppears := true, soup := soupTitleOnly, textWriteFails := false,
    imgDownloadOk := false, csvWriteFails := false }

/-- Second candidate of the C5 run: its rating element carries
whitespace-only text, so `extract_rating` raises `IndexError` inside the
item's pipeline. -/
def it5b : ItemEnv :=
  { href := some "/a/dp/C5B", sorrySrcs := ["all fine"],
    titleAppears := true, soup := soupBlankRating, textWriteFails := false,
    imgDownloadOk := false, csvWriteFails := false }

/-- Third healthy candidate of the C5 run, never reached. -/
def it5c : ItemEnv :=
  { href := some "/a/dp/C5C", sorrySrcs := ["all fine"],
    titleAppears := true, soup := soupTitleOnly, textWriteFails := false,
    imgDownloadOk := false, csvWriteFails := false }

/-- The crawl state after the first C5 item only. -/
def c5Halt : CrawlState :=
  { csvF := some
      [["id", "url", "title", "price", "rating", "brand", "color"],
       [generate_id "https://www.amazon.com/a/dp/C5A",
        "https://www.amazon.com/a/dp/C5A", "T", "", "N/A", "N/A", "N/A"]],
    texts := [generate_id "https://www.amazon.com/a/dp/C5A"], images := [],
    scrapedIds := [generate_id "https://www.amazon.com/a/dp/C5A"],
    totalScraped := 1 }

/-- C5, counterexample.  The claim says an unexpected exception inside
one item's pipeline is caught at the per-item boundary and the category
crawl continues with the next item.  `scrape_category` has no per-item
`try/except`: on the concrete feed `[it5a, it5b, it5c]` the `IndexError`
raised inside `it5b`'s pipeline escapes the whole category run (the
result is `raised`, not a normal completion), and the healthy third
item is never harvested. -/
theorem c5_counterexample :
    scrape_category 10 none [{ items := [it5a, it5b, it5c] }] =
      .raised c5Halt .indexError ∧
    c5Halt.totalScraped = 1 ∧
    ¬ generate_id (canonUrl "/a/dp/C5C") ∈ c5Halt.scrapedIds := by
  refine ⟨by decide, rfl, by decide⟩

/-- C5, amended.  An unhandled exception anywhere in one item's pipeline
propagates out of `scrape_category` and is caught only by the run-level
`except Exception` in `main` (lines 439–440): the run completes with the
states produced so far, the raising category is cut short, and no later
category runs.  Failing to obtain the Page Provider session at all
(`get_driver()` at line 432, outside the `try`) is fatal to the whole
run. -/
theorem c5_amended (maxPer : Nat) (cats : List CategoryEnv)
    (c : CategoryEnv) (rest : List CategoryEnv) (st : CrawlState)
    (e : PyError)
    (h : scrape_category maxPer c.initFile c.listings = .raised st e) :
    mainRun false maxPer cats = none ∧
    mainRun true maxPer (c :: rest) = some ([st], some e) := by
  refine ⟨by simp [mainRun], ?_⟩
  simp [mainRun, mainGo, h]

/-- The C5 category environment. -/
def cat5 : CategoryEnv :=
  { initFile := none, listings := [{ items := [it5a, it5b, it5c] }] }

/-- C5, witness: the concrete raising category ends the run after its
own partial state; a failed driver start is fatal. -/
theorem c5_amended_witness :
    mainRun false 10 [] = none ∧
    mainRun true 10 [cat5] = some ([c5Halt], some .indexError) :=
  c5_amended 10 [] cat5 [] c5Halt .indexError (by decide)

/-! ## C1 — idempotence: the dedup index keeps output ids unique -/

/-- The state a `StepOut` carries. -/
def outState : StepOut → CrawlState
  | .ok s => s
  | .raised s _ => s

/-- Well-formedness of an output file for id-reading: absent, or
non-empty with `id` as its first header column — exactly the shape this
writer produces (the record dict always starts with `id`). -/
def InitFileOk : Option CsvFile → Prop
  | none => True
  | some [] => False
  | some (hdr :: _) => hdr.findIdx? (· == "id") = some 0

/-- No product-facts key of the item's snapshot collides with the `id`
column (a facts row labelled `ID` would overwrite the identifier via
`data.update`). -/
def NCItem (it : ItemEnv) : Prop :=
  ∀ q ∈ extract_product_details it.soup, ¬ q.1 = "id"

/-- The dedup invariant: every identifier in the output file is in the
dedup set, the file's identifiers are pairwise distinct, and the file
keeps its id-readable shape. -/
def IdInv (st : CrawlState) : Prop :=
  (∀ x ∈ fileIds st.csvF, x ∈ st.scrapedIds) ∧
  (fileIds st.csvF).Nodup ∧
  InitFileOk st.csvF

/-- Append-only extension between file states. -/
def fileExtends (f g : Option CsvFile) : Prop :=
  match f with
  | none => True
  | some rows => ∃ t, g = some (rows ++ t)

theorem fileExtends_refl (f : Option CsvFile) : fileExtends f f := by
  cases f with
  | none => trivial
  | some rows => exact ⟨[], by simp⟩

theorem fileExtends_trans (f g k : Option CsvFile)
    (h1 : fileExtends f g) (h2 : fileExtends g k) : fileExtends f k := by
  cases f with
  | none => trivial
  | some rows =>
    obtain ⟨t, ht⟩ := h1
    rw [ht] at h2
    obtain ⟨t2, ht2⟩ := h2
    exact ⟨t ++ t2, by simpa using ht2⟩

/-- Appending one record whose dict starts with `("id", pid)` adds
exactly `pid` to the file's id column and keeps the file id-readable. -/
theorem appendRecord_ids (csvF : Option CsvFile)
    (data : List (String × Option String)) (pid : String)
    (d' : List (String × Option String))
    (hdata : data = ("id", some pid) :: d')
    (hok : InitFileOk csvF) :
    fileIds (some (appendRecord csvF data)) = fileIds csvF ++ [pid] ∧
    InitFileOk (some (appendRecord csvF data)) := by
  cases csvF with
  | none =>
    subst hdata
    constructor
    · simp [fileIds, appendRecord, csvIds, dictKeys, dictCells, List.findIdx?]
    · simp [InitFileOk, appendRecord, dictKeys, List.findIdx?]
  | some f =>
    cases f with
    | nil => exact absurd hok (by simp [InitFileOk])
    | cons hdr rows =>
      have hidx : hdr.findIdx? (· == "id") = some 0 := hok
      constructor
      · subst hdata
        simp [fileIds, appendRecord, csvIds, hidx, dictCells]
      · simpa [InitFileOk, appendRecord] using hidx

/-- One item visit preserves the dedup invariant, only extends the file,
and only grows the dedup set. -/
theorem processItem_inv (st : CrawlState) (it : ItemEnv)
    (hNC : NCItem it) (hInv : IdInv st) :
    IdInv (outState (processItem st it)) ∧
    fileExtends st.csvF (outState (processItem st it)).csvF ∧
    (∀ x ∈ st.scrapedIds, x ∈ (outState (processItem st it)).scrapedIds) := by
  rcases processItem_total st it with h1 | ⟨e, s2, h2, hs, hc, _⟩ |
    ⟨h, r, hh, hfresh, hr, h3⟩
  · rw [h1]
    exact ⟨hInv, fileExtends_refl _, fun x hx => hx⟩
  · rw [h2]
    refine ⟨?_, ?_, ?_⟩
    · unfold IdInv at hInv ⊢
      rw [outState, hs, hc]
      exact hInv
    · rw [outState, hc]
      exact fileExtends_refl _
    · rw [outState, hs]
      exact fun x hx => hx
  · rw [h3]
    obtain ⟨d', hd'⟩ := dictUpdate_cons "id" (some (generate_id (canonUrl h)))
      (extract_product_details it.soup)
      [("url", some (canonUrl h)), ("title", some (extract_title it.soup)),
       ("price", extract_price it.soup), ("rating", some r),
       ("brand", some (extract_brand it.soup)),
       ("color", some (extract_color it.soup))] hNC
    have hdata : dataOf (generate_id (canonUrl h)) (canonUrl h) r it.soup =
        ("id", some (generate_id (canonUrl h))) :: d' := hd'
    obtain ⟨hids, hok2⟩ := appendRecord_ids st.csvF _ (generate_id (canonUrl h))
      d' hdata hInv.2.2
    have hnotmem : generate_id (canonUrl h) ∉ st.scrapedIds := by
      simpa using hfresh
    refine ⟨⟨?_, ?_, ?_⟩, ?_, ?_⟩
    · rw [outState, appendedState]
      simp only [hids]
      intro x hx
      rcases List.mem_append.mp hx with hx | hx
      · exact List.mem_append_left _ (hInv.1 x hx)
      · exact List.mem_append_right _ hx
    · rw [outState, appendedState]
      simp only [hids]
      rw [List.nodup_append]
      refine ⟨hInv.2.1, List.nodup_singleton _, ?_⟩
      intro x hx hx1
      have : x = generate_id (canonUrl h) := by simpa using hx1
      subst this
      exact hnotmem (hInv.1 _ hx)
    · rw [outState, appendedState]
      exact hok2
    · rw [outState, appendedState]
      cases hcs : st.csvF with
      | none => trivial
      | some rows =>
        exact ⟨[dictCells (dataOf (generate_id (canonUrl h)) (canonUrl h) r it.soup)],
          by simp [appendRecord, hcs]⟩
    · rw [outState, appendedState]
      exact fun x hx => List.mem_append_left _ hx

/-- The item loop preserves the dedup invariant. -/
theorem runItems_inv (maxPer : Nat) :
    ∀ (items : List ItemEnv) (st : CrawlState), IdInv st →
    (∀ it ∈ items, NCItem it) →
    IdInv (outState (runItems maxPer st items)) ∧
    fileExtends st.csvF (outState (runItems maxPer st items)).csvF ∧
    (∀ x ∈ st.scrapedIds,
      x ∈ (outState (runItems maxPer st items)).scrapedIds) := by
  intro items
  induction items with
  | nil =>
    intro st hInv _
    exact ⟨hInv, fileExtends_refl _, fun x hx => hx⟩
  | cons it rest ih =>
    intro st hInv hNC
    by_cases hcap : maxPer ≤ st.totalScraped
    · simp only [runItems, hcap, if_true]
      exact ⟨hInv, fileExtends_refl _, fun x hx => hx⟩
    · have hpi := processItem_inv st it (hNC it (List.mem_cons_self it rest)) hInv
      cases hpo : processItem st it with
      | ok st2 =>
        rw [hpo, outState] at hpi
        have hrest := ih st2 hpi.1 (fun q hq => hNC q (List.mem_cons_of_mem it hq))
        simp only [runItems, hcap, if_false, hpo]
        exact ⟨hrest.1, fileExtends_trans _ _ _ hpi.2.1 hrest.2.1,
          fun x hx => hrest.2.2 x (hpi.2.2 x hx)⟩
      | raised s e =>
        rw [hpo, outState] at hpi
        simp only [runItems, hcap, if_false, hpo]
        exact hpi

/-- The listing loop preserves the dedup invariant. -/
theorem runListings_inv (maxPer : Nat) :
    ∀ (listings : List ListingEnv) (st : CrawlState), IdInv st →
    (∀ l ∈ listings, ∀ it ∈ l.items, NCItem it) →
    IdInv (outState (runListings maxPer st listings)) ∧
    fileExtends st.csvF (outState (runListings maxPer st listings)).csvF := by
  intro listings
  induction listings with
  | nil =>
    intro st hInv _
    exact ⟨hInv, fileExtends_refl _⟩
  | cons l rest ih =>
    intro st hInv hNC
    by_cases hcap : maxPer ≤ st.totalScraped
    · simp only [runListings, hcap, if_true]
      exact ⟨hInv, fileExtends_refl _⟩
    · by_cases hemp : l.items.isEmpty
      · simp only [runListings, hcap, hemp, if_false, if_true]
        exact ⟨hInv, fileExtends_refl _⟩
      · have hitems := runItems_inv maxPer l.items st hInv
          (fun it hit => hNC l (List.mem_cons_self l rest) it hit)
        cases hro : runItems maxPer st l.items with
        | ok st2 =>
          rw [hro, outState] at hitems
          have hrest := ih st2 hitems.1
            (fun l2 hl2 => hNC l2 (List.mem_cons_of_mem l hl2))
          simp only [runListings, hcap, hemp, if_false, hro]
          exact ⟨hrest.1, fileExtends_trans _ _ _ hitems.2.1 hrest.2⟩
        | raised s e =>
          rw [hro, outState] at hitems
          simp only [runListings, hcap, hemp, if_false, hro]
          exact ⟨hitems.1, hitems.2.1⟩

/-- C1.  Re-running the crawler over the same pages appends no duplicate
identifier: (1) at category-crawl start the dedup set is seeded exactly
from the `id` column of the category's existing output CSV (and from
nothing else — `initState` is defined by that read alone); (2) whether
the run finishes normally or an exception escapes, the resulting file is
an append-only extension of the existing one and its identifiers are
pairwise distinct — no row whose identifier already appears in the file
is ever appended again; (3) every candidate whose identifier is already
in the dedup set is skipped before visiting, leaving the state
untouched.  Hypotheses: the existing file is id-readable in the shape
this writer produces, its ids are distinct, and no page's product-facts
key collides with the `id` column. -/
theorem c1_idempotent (maxPer : Nat) (initFile : Option CsvFile)
    (listings : List ListingEnv)
    (hgood : InitFileOk initFile)
    (hnd : (fileIds initFile).Nodup)
    (hNC : ∀ l ∈ listings, ∀ it ∈ l.items, NCItem it) :
    (initState initFile).scrapedIds = fileIds initFile ∧
    fileExtends initFile
      (outState (scrape_category maxPer initFile listings)).csvF ∧
    (fileIds (outState (scrape_category maxPer initFile listings)).csvF).Nodup ∧
    (∀ (st' : CrawlState) (it : ItemEnv) (h : String), it.href = some h →
      ¬ h = "" → strContains h "/dp/" = true →
      st'.scrapedIds.contains (generate_id (canonUrl h)) = true →
      processItem st' it = .ok st') := by
  have hInit : IdInv (initState initFile) :=
    ⟨fun x hx => hx, hnd, hgood⟩
  have hrun := runListings_inv maxPer listings (initState initFile) hInit hNC
  exact ⟨rfl, hrun.2, hrun.1.2.1,
    fun st' it h hh hne hdp hdup =>
      (processItem_skip st' it).2.2.2.1 h hh hne hdp hdup⟩

/-- An existing bronze CSV with one previously harvested row. -/
def c1File : CsvFile :=
  [["id", "url", "title", "price", "rating", "brand", "color"],
   ["oldid1", "https://www.amazon.com/a/dp/OLD", "Old", "", "N/A", "N/A", "N/A"]]

/-- A fresh candidate for the C1 witness run. -/
def it1a : ItemEnv :=
  { href := some "/a/dp/C1B", sorrySrcs := ["all fine"],
    titleAppears := true, soup := soupTitleOnly, textWriteFails := false,
    imgDownloadOk := false, csvWriteFails := false }

/-- C1, witness: a concrete resumed run over one listing. -/
theorem c1_idempotent_witness :
    (initState (some c1File)).scrapedIds = fileIds (some c1File) ∧
    fileExtends (some c1File)
      (outState (scrape_category 10 (some c1File)
        [{ items := [it1a] }])).csvF ∧
    (fileIds (outState (scrape_category 10 (some c1File)
        [{ items := [it1a] }])).csvF).Nodup ∧
    (∀ (st' : CrawlState) (it : ItemEnv) (h : String), it.href = some h →
      ¬ h = "" → strContains h "/dp/" = true →
      st'.scrapedIds.contains (generate_id (canonUrl h)) = true →
      processItem st' it = .ok st') :=
  c1_idempotent 10 (some c1File) [{ items := [it1a] }]
    (by exact rfl) (by decide)
    (by
      intro l hl it hit
      have hl2 : l = { items := [it1a] } := by simpa using hl
      subst hl2
      have hi : it = it1a := by simpa using hit
      subst hi
      intro q hq
      simp [extract_product_details, it1a, soupTitleOnly] at hq)

end AmazonBooks
